import Mathlib

/-!
Verification development for the SoulCypher avatar SDK
(`src/packages/web/src/sdk.ts`, `src/packages/web/src/session.ts`, and the
API client in `src/unnamed/part_000`).

The TypeScript sources are shallowly embedded: each class becomes a
structure, each method a pure function from the structure (plus the
behaviour of the external collaborators it calls) to a new structure, an
explicit success/failure result, and a trace of observable actions.
External collaborators (the LiveKit transport room, `fetch`, `JSON.parse`)
are not part of the repository; their outcomes enter as explicit
parameters or behaviour records, following the spec's description of them
as black boxes.

JavaScript-semantics conventions used throughout:
* a possibly-absent string field is `Option String`, and JS truthiness of
  such a field (`!x`) is `jsTruthyStr` (absent and `""` are both falsy);
* property access `o.k` is `jsGetField`, which raises `TypeError` on
  `null` (modelled as `Except.error`) and yields `undefined` (`none`) on
  non-objects and missing keys;
* `a || b` is `jsOrElse`;
* an `async` method never throws synchronously; calling it without
  `await` discards its eventual rejection (recorded in traces as
  `Action.unhandledRejection`).
-/

namespace SoulCypher

/-- Model of a JSON value, the result of a successful `JSON.parse`. -/
inductive Json where
  | null : Json
  | bool (b : Bool) : Json
  | num (n : Int) : Json
  | str (s : String) : Json
  | arr (elems : List Json) : Json
  | obj (fields : List (String × Json)) : Json

/-- JS property access `j.key`: `TypeError` on `null` (the JS engines also
raise on `undefined`, which we never feed in), `undefined` (`none`) on
primitives and on objects lacking the key, otherwise the field value. -/
def jsGetField (j : Json) (key : String) : Except String (Option Json) :=
  match j with
  | Json.null => Except.error "TypeError"
  | Json.obj fields => Except.ok ((fields.find? (fun p => p.1 == key)).map Prod.snd)
  | _ => Except.ok none

/-- JS truthiness of a defined value. -/
def jsTruthy : Json → Bool
  | Json.null => false
  | Json.bool b => b
  | Json.num n => !(n == 0)
  | Json.str s => !(s == "")
  | Json.arr _ => true
  | Json.obj _ => true

/-- JS `x || fallback` where `x` may be `undefined` (`none`). -/
def jsOrElse (x : Option Json) (fallback : Json) : Json :=
  match x with
  | some j => if jsTruthy j then j else fallback
  | none => fallback

/-- JS truthiness of a possibly-absent string (`undefined`, `null` and
`""` are falsy). -/
def jsTruthyStr : Option String → Bool
  | none => false
  | some s => !(s == "")

/-! ## API client error normalization (`src/unnamed/part_000`, `APIClient.handleErrorResponse`) -/

/-- The typed errors `handleErrorResponse` can produce.  `authentication`
and `rateLimit` embed the fixed codes/status of `AuthenticationError` and
`RateLimitError` from the types module; `soulCypher` carries the explicit
code and status used at each `throw new SoulCypherError(...)` site.
`jsTypeError` records the one path where `handleErrorResponse` itself
raises a bare `TypeError` (reading `.message` off a parsed `null` body)
instead of a typed error. -/
inductive APIError where
  | authentication (message : Json) : APIError
  | rateLimit (message : Json) : APIError
  | soulCypher (message : Json) (code : String) (statusCode : Option Nat) : APIError
  | jsTypeError : APIError

/-- The message carried by a typed API error. -/
def APIError.message : APIError → Option Json
  | APIError.authentication m => some m
  | APIError.rateLimit m => some m
  | APIError.soulCypher m _ _ => some m
  | APIError.jsTypeError => none

/-- `APIClient.handleErrorResponse(response)`.  `status` is
`response.status`, `text` is `await response.text()`, and `parsed` is the
outcome of the external `JSON.parse(text)` (`none` when it throws, e.g.
`JSON.parse("")` always throws a `SyntaxError`).  The source sets
`errorData = JSON.parse(text)` inside a `try`, falling back to
`{ message: text }`, then computes
`errorData.message || "Request failed with status " + status` and throws
the error class selected by the status switch. -/
def handleErrorResponse (status : Nat) (text : String) (parsed : Option Json) : APIError :=
  let errorData : Json :=
    match parsed with
    | some j => j
    | none => Json.obj [("message", Json.str text)]
  match jsGetField errorData "message" with
  | Except.error _ => APIError.jsTypeError
  | Except.ok rawMessage =>
    let message : Json :=
      jsOrElse rawMessage (Json.str ("Request failed with status " ++ toString status))
    match status with
    | 401 => APIError.authentication message
    | 429 => APIError.rateLimit message
    | 400 => APIError.soulCypher message "VALIDATION_ERROR" (some 400)
    | 404 => APIError.soulCypher message "NOT_FOUND" (some 404)
    | 500 => APIError.soulCypher message "INTERNAL_ERROR" (some 500)
    | s => APIError.soulCypher message "API_ERROR" (some s)

example : handleErrorResponse 429 "ignored" (some (Json.obj [("message", Json.str "Too many requests")]))
    = APIError.rateLimit (Json.str "Too many requests") := rfl

example : handleErrorResponse 401 "not json at all" none
    = APIError.authentication (Json.str "not json at all") := rfl

example : handleErrorResponse 429 "" none
    = APIError.rateLimit (Json.str "Request failed with status 429") := rfl

example : handleErrorResponse 500 "null" (some Json.null) = APIError.jsTypeError := rfl

/-! ## Event and message-type constants

Modelled from the spec: `session.ts` imports these from the sibling
`constants` module (`SESSION_EVENTS`, `AVATAR_EVENTS`, `CONNECTION_EVENTS`,
`MESSAGE_TYPES`), which is not among the provided sources; the string
values below are the event vocabulary of spec §4.3/§6 and the data-channel
`type` discriminators of spec §6. -/

def SESSION_STARTED : String := "session.started"

/-- Modelled from the spec (see the section comment above). -/
def SESSION_ENDED : String := "session.ended"

/-- Modelled from the spec (see the section comment above). -/
def AVATAR_VIDEO : String := "avatar.video"

/-- Modelled from the spec (see the section comment above). -/
def AVATAR_AUDIO : String := "avatar.audio"

/-- Modelled from the spec (see the section comment above). -/
def AVATAR_RESPONSE : String := "avatar.response"

/-- Modelled from the spec (see the section comment above). -/
def AVATAR_STATUS : String := "avatar.status"

/-- Modelled from the spec (see the section comment above). -/
def AVATAR_ERROR : String := "avatar.error"

/-- Modelled from the spec (see the section comment above). -/
def CONNECTION_QUALITY : String := "connection.quality"

/-- Modelled from the spec (see the section comment above). -/
def MSG_CHAT : String := "chat"

/-- Modelled from the spec (see the section comment above). -/
def MSG_STATUS : String := "status"

/-- Modelled from the spec (see the section comment above). -/
def MSG_RESPONSE : String := "response"

/-- Modelled from the spec (see the section comment above). -/
def MSG_ERROR : String := "error"

/-! ## Session layer (`src/packages/web/src/session.ts`) -/

/-- The part of the `AvatarSession` payload that `session.ts` reads.  The
credential fields are `Option String` so that a session object that
arrived without them (the TypeScript type says `string` but the runtime
check `!this.session.liveKitToken` guards exactly against that) is
representable; `none` and `some ""` are both JS-falsy. -/
structure AvatarSession where
  id : String
  liveKitToken : Option String
  liveKitUrl : Option String
deriving DecidableEq, Repr

/-- An event handler registered through `on`.  Handlers are identified by
`hid` (JS compares callbacks by reference identity in `indexOf`); the
`throwing` flag says whether invoking the handler raises. -/
structure Handler where
  hid : Nat
  throwing : Bool
deriving DecidableEq, Repr

/-- Behaviour of the external LiveKit transport for one `Room` instance:
whether `Room.connect` fulfills (and the failure message when it rejects),
whether `publishData` fulfills, and whether the `Room.disconnect` promise
fulfills.  All three are `async` operations of the external provider;
none of them throws synchronously. -/
structure RoomBehavior where
  connectOk : Bool
  connectErrMsg : String
  publishOk : Bool
  publishErrMsg : String
  disconnectOk : Bool
deriving DecidableEq, Repr

/-- The external LiveKit `Room` as observed by the SDK: its behaviour and
its `state` string (livekit `ConnectionState`: a fresh room is
`"disconnected"`, a failed connect attempt leaves it `"disconnected"`,
a successful one makes it `"connected"`). -/
structure Room where
  behavior : RoomBehavior
  state : String
deriving DecidableEq, Repr

/-- `new Room()`. -/
def Room.new (rb : RoomBehavior) : Room :=
  { behavior := rb, state := "disconnected" }

/-- State of an `AvatarSessionManager`: the `room` field (null when no
transport room object is held), the immutable session payload, and the
`eventHandlers` map from event type to handler array (insertion-ordered
association list, like a JS `Map`). -/
structure Manager where
  room : Option Room
  session : AvatarSession
  eventHandlers : List (String × List Handler)
deriving DecidableEq, Repr

/-- `new AvatarSessionManager(session)`. -/
def Manager.new (s : AvatarSession) : Manager :=
  { room := none, session := s, eventHandlers := [] }

/-- JS `Map.get`. -/
def mapGet {α : Type} (m : List (String × α)) (k : String) : Option α :=
  (m.find? (fun p => p.1 == k)).map Prod.snd

/-- JS `Map.set`: replaces the value at an existing key in place,
otherwise appends the new entry (insertion order preserved). -/
def mapSet {α : Type} : List (String × α) → String → α → List (String × α)
  | [], k, v => [(k, v)]
  | (k', v') :: rest, k, v =>
      if k' == k then (k, v) :: rest else (k', v') :: mapSet rest k v

/-- JS `Map.delete`. -/
def mapDelete {α : Type} : List (String × α) → String → List (String × α)
  | [], _ => []
  | (k', v') :: rest, k =>
      if k' == k then rest else (k', v') :: mapDelete rest k

/-- The `handlers.indexOf(handler)` / `handlers.splice(index, 1)` pair in
`off`: remove the first occurrence if present, otherwise change nothing. -/
def removeFirst : List Handler → Handler → List Handler
  | [], _ => []
  | h :: rest, target => if h == target then rest else h :: removeFirst rest target

/-- Errors raised by the session layer: `ConnectionError` and
`SessionError` from the types module, carrying their message. -/
inductive SessionLayerError where
  | connectionError (message : String) : SessionLayerError
  | sessionError (message : String) : SessionLayerError
deriving DecidableEq, Repr

/-- Observable actions of the session and facade layers, recorded as
traces: calls into the external transport and gateway, emissions of
domain events (with the handler ids invoked, in order, and the subset
whose invocation raised and was caught), `console` logging, a transport
promise rejection that was discarded because the promise was not awaited,
and the facade's registry deletion (instrumented so that its ordering
relative to the remote call is visible in traces). -/
inductive Action where
  | roomConnect (url : String) (token : String) : Action
  | roomDisconnect : Action
  | unhandledRejection : Action
  | publishData (payload : Json) : Action
  | emit (eventType : String) (invoked : List Nat) (caught : List Nat) : Action
  | consoleWarn : Action
  | fetchSession (sid : String) : Action
  | registryDelete (sid : String) : Action
  | remoteEndSession (sid : String) : Action

/-- One pass of `handlers.forEach` in `emitEvent`: each handler is invoked
inside `try { handler(eventData) } catch { console.error(...) }`, so every
handler runs, in array order, and the ids of the handlers that raised are
recorded as caught.  Returns (ids invoked in order, ids caught). -/
def dispatch : List Handler → List Nat × List Nat
  | [] => ([], [])
  | h :: rest =>
      let t := dispatch rest
      (h.hid :: t.1, if h.throwing then h.hid :: t.2 else t.2)

/-- `AvatarSessionManager.emitEvent(type, data)`: looks up the handler
array for the type and dispatches to each handler in order with a
per-handler catch.  The returned `Action.emit` records the emission (with
an empty invocation list when no handler array exists for the type). -/
def Manager.emitEvent (m : Manager) (ty : String) : Action :=
  match mapGet m.eventHandlers ty with
  | none => Action.emit ty [] []
  | some hs => Action.emit ty (dispatch hs).1 (dispatch hs).2

/-- `AvatarSessionManager.on(event, handler)`: create the array for the
event type if absent, then push the handler at its end. -/
def Manager.on (m : Manager) (event : String) (handler : Handler) : Manager :=
  match mapGet m.eventHandlers event with
  | none => { m with eventHandlers := mapSet m.eventHandlers event [handler] }
  | some hs => { m with eventHandlers := mapSet m.eventHandlers event (hs ++ [handler]) }

/-- `AvatarSessionManager.off(event, handler)`: remove the first
occurrence of the handler from the array for the event type, if any. -/
def Manager.off (m : Manager) (event : String) (handler : Handler) : Manager :=
  match mapGet m.eventHandlers event with
  | none => m
  | some hs => { m with eventHandlers := mapSet m.eventHandlers event (removeFirst hs handler) }

/-- `AvatarSessionManager.getStatus()`: `"disconnected"` when no room is
held, otherwise the switch over `room.state` with default `"error"`. -/
def Manager.getStatus (m : Manager) : String :=
  match m.room with
  | none => "disconnected"
  | some room =>
      if room.state == "connected" then "connected"
      else if room.state == "connecting" then "connecting"
      else if room.state == "disconnected" then "disconnected"
      else "error"

/-- `AvatarSessionManager.connect(videoElement?, audioElement?)`.
`rb` is the behaviour of the external transport for the `new Room()`
created by this call.  Source shape: guard on falsy
`liveKitToken`/`liveKitUrl` throwing `ConnectionError("LiveKit connection
details not available")`; otherwise assign `this.room = new Room()`,
register the transport hooks (their reactions are the `onTransport...`
functions below), `await this.room.connect(url, token)`; on success emit
`session.started`, on rejection the `catch` wraps the failure in
`ConnectionError("Failed to connect to LiveKit: " + message)` — note that
`this.room` keeps the failed room object (the source never resets it).
The optional media elements only add track-attachment listeners on the
transport room and touch no state read by any claim, so they are not
modelled. -/
def Manager.connect (m : Manager) (rb : RoomBehavior) :
    Manager × Except SessionLayerError Unit × List Action :=
  if !(jsTruthyStr m.session.liveKitToken) || !(jsTruthyStr m.session.liveKitUrl) then
    (m, Except.error (SessionLayerError.connectionError "LiveKit connection details not available"), [])
  else
    let url := m.session.liveKitUrl.getD ""
    let token := m.session.liveKitToken.getD ""
    if rb.connectOk then
      let m1 : Manager := { m with room := some { Room.new rb with state := "connected" } }
      (m1, Except.ok (), [Action.roomConnect url token, m1.emitEvent SESSION_STARTED])
    else
      let m1 : Manager := { m with room := some (Room.new rb) }
      (m1, Except.error (SessionLayerError.connectionError
          ("Failed to connect to LiveKit: " ++ rb.connectErrMsg)),
        [Action.roomConnect url token])

/-- `AvatarSessionManager.disconnect()`: when a room is held, call the
transport `room.disconnect()` — an `async` call whose promise is not
awaited, so a rejection is discarded as an unhandled rejection — and set
`this.room = null`; in every case emit `session.ended`.  The method never
rejects. -/
def Manager.disconnect (m : Manager) :
    Manager × Except SessionLayerError Unit × List Action :=
  match m.room with
  | some room =>
      let teardown :=
        if room.behavior.disconnectOk then [Action.roomDisconnect]
        else [Action.roomDisconnect, Action.unhandledRejection]
      let m1 : Manager := { m with room := none }
      (m1, Except.ok (), teardown ++ [m1.emitEvent SESSION_ENDED])
  | none =>
      (m, Except.ok (), [m.emitEvent SESSION_ENDED])

/-- `AvatarSessionManager.sendMessage(message)`: throw
`SessionError("Not connected to session")` when `this.room` is null —
without touching the transport; otherwise publish the serialized chat
envelope `{type: MESSAGE_TYPES.CHAT, text: message}` on the reliable
channel, wrapping a publish rejection in
`SessionError("Failed to send message: " + message)`. -/
def Manager.sendMessage (m : Manager) (message : String) :
    Manager × Except SessionLayerError Unit × List Action :=
  match m.room with
  | none =>
      (m, Except.error (SessionLayerError.sessionError "Not connected to session"), [])
  | some room =>
      let payload := Json.obj [("type", Json.str MSG_CHAT), ("text", Json.str message)]
      if room.behavior.publishOk then
        (m, Except.ok (), [Action.publishData payload])
      else
        (m, Except.error (SessionLayerError.sessionError
            ("Failed to send message: " ++ room.behavior.publishErrMsg)),
          [Action.publishData payload])

/-- The `RoomEvent.DataReceived` hook registered by
`setupRoomEventHandlers`: inside a `try`, `JSON.parse` the decoded
payload (`parsed = none` models a parse throw), read `data.type` (a
`TypeError` on a parsed `null` is also caught by the same `try`), and
emit `avatar.status` / `avatar.response` / `avatar.error` when the
discriminator strictly equals the corresponding `MESSAGE_TYPES` constant;
any other payload falls through every branch and nothing is emitted.  The
`catch` only logs (`console.warn`). -/
def Manager.onDataReceived (m : Manager) (parsed : Option Json) : List Action :=
  match parsed with
  | none => [Action.consoleWarn]
  | some data =>
      match jsGetField data "type" with
      | Except.error _ => [Action.consoleWarn]
      | Except.ok tyField =>
          match tyField with
          | some (Json.str s) =>
              if s == MSG_STATUS then [m.emitEvent AVATAR_STATUS]
              else if s == MSG_RESPONSE then [m.emitEvent AVATAR_RESPONSE]
              else if s == MSG_ERROR then [m.emitEvent AVATAR_ERROR]
              else []
          | _ => []

/-- The `RoomEvent.Disconnected` hook registered by
`setupRoomEventHandlers`: the transport room has transitioned its state
to `"disconnected"` before firing the event, and the registered handler
emits `session.ended` — it does not clear `this.room`. -/
def Manager.onTransportDisconnected (m : Manager) : Manager × List Action :=
  let m1 : Manager := { m with room := m.room.map (fun r => { r with state := "disconnected" }) }
  (m1, [m1.emitEvent SESSION_ENDED])

/-! ## Facade / registry (`src/packages/web/src/sdk.ts`) -/

/-- State of a `SoulCypherSDK` instance: the `sessions` registry, a JS
`Map` from session identifier to its `AvatarSessionManager`. -/
structure SDKState where
  sessions : List (String × Manager)

/-- Helper: whether an `Except` result is a fulfilled promise. -/
def exceptOk {ε α : Type} : Except ε α → Bool
  | Except.ok _ => true
  | Except.error _ => false

/-- `SoulCypherSDK.getSession(sessionId)`.  `fetched` is the outcome of
the external gateway call `apiClient.getSession(sessionId)` (performed
only on a registry miss).  Source shape: return the registry entry when
present (no network call); otherwise fetch inside a `try`, wrap the
result in a new manager, cache it under the *returned* session's id and
return it; the `catch` swallows any failure and returns `null`. -/
def SDK.getSession (s : SDKState) (sessionId : String)
    (fetched : Except APIError AvatarSession) :
    SDKState × Option Manager × List Action :=
  match mapGet s.sessions sessionId with
  | some existing => (s, some existing, [])
  | none =>
      match fetched with
      | Except.error _ => (s, none, [Action.fetchSession sessionId])
      | Except.ok sess =>
          let sessionManager := Manager.new sess
          ({ sessions := mapSet s.sessions sess.id sessionManager },
            some sessionManager, [Action.fetchSession sessionId])

/-- `SoulCypherSDK.endSession(sessionId)`.  `remoteOk` is whether the
external gateway call `apiClient.endSession(sessionId)` fulfills.  Source
shape: when a manager is registered, `await` its `disconnect()` (which
never rejects, see `Manager.disconnect`) and delete the registry entry;
then `await` the remote end-session call, whose failure propagates to the
caller — after the deletion, which is never rolled back. -/
def SDK.endSession (s : SDKState) (sessionId : String) (remoteOk : Bool) :
    SDKState × Except APIError Unit × List Action :=
  let local_ : SDKState × List Action :=
    match mapGet s.sessions sessionId with
    | some sessionManager =>
        ({ sessions := mapDelete s.sessions sessionId },
          (sessionManager.disconnect).2.2 ++ [Action.registryDelete sessionId])
    | none => (s, [])
  let remoteResult : Except APIError Unit :=
    if remoteOk then Except.ok ()
    else Except.error (APIError.soulCypher (Json.str "Request failed: network") "NETWORK_ERROR" none)
  (local_.1, remoteResult, local_.2 ++ [Action.remoteEndSession sessionId])

/-- `SoulCypherSDK.cleanup()`.  Source shape: map `disconnect()` over all
registered managers — the calls all start before anything is awaited, so
every manager is disconnected regardless of the others — then
`await Promise.all(disconnectPromises)`, which rejects iff some member
promise rejected (in which case `this.sessions.clear()` would not be
reached), and finally clear the registry. -/
def SDK.cleanup (s : SDKState) : SDKState × Except SessionLayerError Unit × List Action :=
  let results := s.sessions.map (fun p => (p.2).disconnect)
  let acts := (results.map (fun r => r.2.2)).flatten
  match results.find? (fun r => !(exceptOk r.2.1)) with
  | some r =>
      (s, match r.2.1 with
          | Except.error e => Except.error e
          | Except.ok _ => Except.ok (), acts)
  | none => ({ sessions := [] }, Except.ok (), acts)

/-! ## Concrete states for scenario runs -/

/-- A session payload carrying full transport credentials. -/
def demoSession : AvatarSession :=
  { id := "s1", liveKitToken := some "tok", liveKitUrl := some "wss://x" }

/-- A transport behaviour where every operation fulfills. -/
def rbAllOk : RoomBehavior :=
  { connectOk := true, connectErrMsg := "", publishOk := true, publishErrMsg := "",
    disconnectOk := true }

/-- A transport behaviour whose connect attempt rejects. -/
def rbConnectFails : RoomBehavior :=
  { connectOk := false, connectErrMsg := "ICE failure", publishOk := true, publishErrMsg := "",
    disconnectOk := true }

/-- A transport behaviour whose disconnect promise rejects. -/
def rbDisconnectFails : RoomBehavior :=
  { connectOk := true, connectErrMsg := "", publishOk := true, publishErrMsg := "",
    disconnectOk := false }

/-- A controller that connected successfully and then received the
transport-disconnected notification: it still holds the (now
disconnected) room object, because the `Disconnected` hook does not clear
`this.room`. -/
def staleRoomManager : Manager :=
  ((((Manager.new demoSession).connect rbAllOk).1).onTransportDisconnected).1

/-- A connected controller over a fully fulfilling transport. -/
def mgrConnectedOk : Manager := ((Manager.new demoSession).connect rbAllOk).1

/-- A connected controller whose transport disconnect promise rejects. -/
def mgrRejectingDisconnect : Manager := ((Manager.new demoSession).connect rbDisconnectFails).1

/-- A registry with three live controllers, the middle one over a
transport whose disconnect rejects (the spec §8 cleanup scenario). -/
def cleanupDemoState : SDKState :=
  { sessions := [("a", mgrConnectedOk), ("b", mgrRejectingDisconnect), ("c", mgrConnectedOk)] }

/-! ## Statement helpers -/

/-- Whether an action is an emission of a domain event. -/
def isEmitAction : Action → Bool
  | Action.emit _ _ _ => true
  | _ => false

/-- Whether an action is an emission of `session.ended`. -/
def isEndedEmit : Action → Bool
  | Action.emit ty _ _ => ty == SESSION_ENDED
  | _ => false

/-- Number of `session.ended` emissions in a trace. -/
def countEnded (tr : List Action) : Nat :=
  (tr.filter isEndedEmit).length

/-- The data-channel discriminators that the `DataReceived` hook
recognizes: the payload parsed to a value whose `type` field is the
string `status`, `response` or `error`. -/
def recognizedDiscriminator (data : Json) : Bool :=
  match jsGetField data "type" with
  | Except.error _ => false
  | Except.ok (some (Json.str s)) => s == MSG_STATUS || s == MSG_RESPONSE || s == MSG_ERROR
  | Except.ok _ => false

/-! ## Shared lemmas -/

/-- The status switch of `handleErrorResponse` always embeds the computed
message into the thrown error, whichever error class the status selects. -/
theorem handleErrorResponse_unparsed_message (status : Nat) (text : String) :
    (handleErrorResponse status text none).message
      = some (jsOrElse (some (Json.str text))
          (Json.str ("Request failed with status " ++ toString status))) := by
  unfold handleErrorResponse
  simp only [jsGetField, List.find?]
  split <;> rfl

/-- Emitting an event yields an emission action carrying exactly the
requested event type. -/
theorem isEndedEmit_emitEvent (m : Manager) (ty : String) :
    isEndedEmit (m.emitEvent ty) = (ty == SESSION_ENDED) := by
  unfold Manager.emitEvent
  split <;> rfl

/-- Emitting an event yields an emission action. -/
theorem isEmitAction_emitEvent (m : Manager) (ty : String) :
    isEmitAction (m.emitEvent ty) = true := by
  unfold Manager.emitEvent
  split <;> rfl

/-- The `disconnect` method never rejects: the only fallible call it
makes, the transport `room.disconnect()`, is not awaited. -/
theorem Manager.disconnect_ok (m : Manager) : (m.disconnect).2.1 = Except.ok () := by
  cases hr : m.room <;> simp [Manager.disconnect, hr]

/-- Counting `session.ended` emissions distributes over trace
concatenation. -/
theorem countEnded_append (a b : List Action) :
    countEnded (a ++ b) = countEnded a + countEnded b := by
  simp [countEnded, List.filter_append]

/-- Neither transport-teardown action is a `session.ended` emission. -/
theorem isEndedEmit_roomDisconnect : isEndedEmit Action.roomDisconnect = false := rfl

/-- A discarded transport rejection is not a `session.ended` emission. -/
theorem isEndedEmit_unhandledRejection : isEndedEmit Action.unhandledRejection = false := rfl

/-- Every `disconnect()` call emits exactly one `session.ended`. -/
theorem countEnded_disconnect (m : Manager) : countEnded (m.disconnect).2.2 = 1 := by
  cases hr : m.room with
  | none => simp [Manager.disconnect, hr, countEnded, isEndedEmit_emitEvent]
  | some r =>
      by_cases hd : r.behavior.disconnectOk <;>
        simp [Manager.disconnect, hr, hd, countEnded, List.filter_cons,
          isEndedEmit_emitEvent, isEndedEmit_roomDisconnect, isEndedEmit_unhandledRejection]

/-- Setting a key makes it retrievable with the set value. -/
theorem mapGet_mapSet_self {α : Type} (m : List (String × α)) (k : String) (v : α) :
    mapGet (mapSet m k v) k = some v := by
  induction m with
  | nil => simp [mapGet, mapSet, List.find?]
  | cons p rest ih =>
      obtain ⟨k', v'⟩ := p
      by_cases hk : (k' == k) = true
      · simp [mapSet, hk, mapGet, List.find?]
      · simp only [mapSet, hk, if_neg]
        simpa [mapGet, List.find?, hk] using ih

/-- Re-setting a key to the value it already holds leaves the map
unchanged. -/
theorem mapSet_self {α : Type} (m : List (String × α)) (k : String) (v : α)
    (h : mapGet m k = some v) : mapSet m k v = m := by
  induction m with
  | nil => simp [mapGet, List.find?] at h
  | cons p rest ih =>
      obtain ⟨k', v'⟩ := p
      by_cases hk : (k' == k) = true
      · have hkk : k' = k := eq_of_beq hk
        have hv : v' = v := by
          simp [mapGet, List.find?, hk] at h
          exact h
        simp [mapSet, hk, hkk, hv]
      · have h' : mapGet rest k = some v := by
          simpa [mapGet, List.find?, hk] using h
        simp [mapSet, hk, ih h']

/-- Removing a handler that is not in the array changes nothing. -/
theorem removeFirst_not_mem (l : List Handler) (h : Handler) (hh : h ∉ l) :
    removeFirst l h = l := by
  induction l with
  | nil => rfl
  | cons x rest ih =>
      have hx : ¬(x == h) = true := by
        simp only [beq_iff_eq]
        intro hxe
        exact hh (hxe ▸ List.mem_cons_self x rest)
      have hrest : h ∉ rest := fun hmem => hh (List.mem_cons_of_mem x hmem)
      simp [removeFirst, hx, ih hrest]

/-- Dispatching invokes every handler of the array, in array order,
whatever each handler's throwing behaviour is. -/
theorem dispatch_invoked (hs : List Handler) : (dispatch hs).1 = hs.map Handler.hid := by
  induction hs with
  | nil => rfl
  | cons h rest ih => simp [dispatch, ih]

/-- The handlers recorded as caught by a dispatch are exactly the
throwing ones. -/
theorem dispatch_caught (hs : List Handler) :
    (dispatch hs).2 = (hs.filter Handler.throwing).map Handler.hid := by
  induction hs with
  | nil => rfl
  | cons h rest ih =>
      by_cases ht : h.throwing = true <;> simp [dispatch, List.filter_cons, ht, ih]

/-- After `on`, the handler array for the event type is the previous
array (empty when there was none) with the new handler appended. -/
theorem on_handlers (m : Manager) (ty : String) (h : Handler) :
    mapGet ((m.on ty h).eventHandlers) ty
      = some ((mapGet m.eventHandlers ty).getD [] ++ [h]) := by
  unfold Manager.on
  cases hm : mapGet m.eventHandlers ty with
  | none => simp [mapGet_mapSet_self]
  | some hs => simp [mapGet_mapSet_self]

/-! ## Claims -/

/-- C9 (amended): a gateway response with HTTP 429 is surfaced as a
rate-limit error and HTTP 401 as an authentication error, both carrying
the server-provided `message` field whenever that field is present and
truthy; when the non-2xx body cannot be parsed as JSON, the raw body text
becomes the error message provided the body text is non-empty, while an
empty unparseable body falls back to the generic
`Request failed with status N` message. -/
theorem c9_error_response_mapping (status : Nat) (text : String) (j v : Json)
    (hv : jsGetField j "message" = Except.ok (some v)) (htruthy : jsTruthy v = true)
    (htext : text ≠ "") :
    handleErrorResponse 429 text (some j) = APIError.rateLimit v ∧
    handleErrorResponse 401 text (some j) = APIError.authentication v ∧
    (handleErrorResponse status text none).message = some (Json.str text) ∧
    (handleErrorResponse status "" none).message
      = some (Json.str ("Request failed with status " ++ toString status)) := by
  refine ⟨?_, ?_, ?_, ?_⟩
  · unfold handleErrorResponse
    dsimp only
    rw [hv]
    simp [jsOrElse, htruthy]
  · unfold handleErrorResponse
    dsimp only
    rw [hv]
    simp [jsOrElse, htruthy]
  · rw [handleErrorResponse_unparsed_message]
    simp [jsOrElse, jsTruthy, htext]
  · rw [handleErrorResponse_unparsed_message]
    simp [jsOrElse, jsTruthy]

/-- C9 witness: the theorem applied at HTTP status 404, body text
`"boom"`, and the parsed body `{"message": "Too many requests"}`. -/
theorem c9_error_response_mapping_witness :
    handleErrorResponse 429 "boom" (some (Json.obj [("message", Json.str "Too many requests")]))
      = APIError.rateLimit (Json.str "Too many requests") ∧
    handleErrorResponse 401 "boom" (some (Json.obj [("message", Json.str "Too many requests")]))
      = APIError.authentication (Json.str "Too many requests") ∧
    (handleErrorResponse 404 "boom" none).message = some (Json.str "boom") ∧
    (handleErrorResponse 404 "" none).message
      = some (Json.str ("Request failed with status " ++ toString 404)) :=
  c9_error_response_mapping 404 "boom" (Json.obj [("message", Json.str "Too many requests")])
    (Json.str "Too many requests") rfl rfl (by decide)

/-- C9 counterexample: with an empty (hence unparseable — `JSON.parse("")`
always throws) response body and HTTP status 429, the raw body text `""`
does not become the error message; the error carries the generic
`Request failed with status 429` message instead. -/
theorem c9_counterexample :
    handleErrorResponse 429 "" none
      = APIError.rateLimit (Json.str "Request failed with status 429") ∧
    (handleErrorResponse 429 "" none).message ≠ some (Json.str "") := by
  refine ⟨rfl, ?_⟩
  intro h
  have h1 : Json.str "Request failed with status 429" = Json.str "" := Option.some.inj h
  have h2 : "Request failed with status 429" = "" := by injection h1
  exact absurd h2 (by decide)

/-- C4: for every controller and every prior state — never connected,
already disconnected, or holding a transport room whose disconnect
promise rejects — `disconnect()` resolves (never throws), tears down the
transport room when one exists (and performs no transport call when none
does), leaves no room behind, and emits exactly one `session.ended`
domain event per call (so a repeated call emits exactly one again). -/
theorem c4_disconnect_idempotent_ended (m : Manager) :
    (m.disconnect).2.1 = Except.ok () ∧
    countEnded (m.disconnect).2.2 = 1 ∧
    ((m.disconnect).1).room = none ∧
    (m.room = none →
      (m.disconnect).2.2 = [m.emitEvent SESSION_ENDED] ∧ (m.disconnect).1 = m) ∧
    (∀ r, m.room = some r → Action.roomDisconnect ∈ (m.disconnect).2.2) := by
  cases hr : m.room with
  | none =>
      refine ⟨Manager.disconnect_ok m, countEnded_disconnect m, ?_, ?_, ?_⟩
      · simp [Manager.disconnect, hr]
      · intro _
        simp [Manager.disconnect, hr]
      · intro r hcontra
        cases hcontra
  | some r =>
      refine ⟨Manager.disconnect_ok m, countEnded_disconnect m, ?_, ?_, ?_⟩
      · simp [Manager.disconnect, hr]
      · intro hcontra
        cases hcontra
      · intro r' _
        by_cases hd : r.behavior.disconnectOk <;> simp [Manager.disconnect, hr, hd]

/-- C4 witness: the theorem applied to a never-connected controller,
with its implications discharged there. -/
theorem c4_disconnect_idempotent_ended_witness :
    ((Manager.new { id := "s1", liveKitToken := some "tok", liveKitUrl := some "wss://x" }).disconnect).2.1
        = Except.ok () ∧
    ((Manager.new { id := "s1", liveKitToken := some "tok", liveKitUrl := some "wss://x" }).disconnect).2.2
        = [(Manager.new { id := "s1", liveKitToken := some "tok", liveKitUrl := some "wss://x" }).emitEvent SESSION_ENDED] :=
  ⟨(c4_disconnect_idempotent_ended
      (Manager.new { id := "s1", liveKitToken := some "tok", liveKitUrl := some "wss://x" })).1,
    ((c4_disconnect_idempotent_ended
      (Manager.new { id := "s1", liveKitToken := some "tok", liveKitUrl := some "wss://x" })).2.2.2.1 rfl).1⟩

/-- C10: the `session.ended` event is not emitted at most once per
controller.  For every controller state, the transport-disconnected
notification emits one `session.ended` (and retains the room object), and
a subsequent `disconnect()` call emits another, so the combined trace of
the two steps carries exactly two `session.ended` emissions. -/
theorem c10_double_session_ended (m : Manager) :
    countEnded (m.onTransportDisconnected).2 = 1 ∧
    countEnded ((m.onTransportDisconnected).1.disconnect).2.2 = 1 ∧
    countEnded ((m.onTransportDisconnected).2
      ++ ((m.onTransportDisconnected).1.disconnect).2.2) = 2 := by
  have h1 : countEnded (m.onTransportDisconnected).2 = 1 := by
    simp [Manager.onTransportDisconnected, countEnded, isEndedEmit_emitEvent]
  have h2 : countEnded ((m.onTransportDisconnected).1.disconnect).2.2 = 1 :=
    countEnded_disconnect ((m.onTransportDisconnected).1)
  exact ⟨h1, h2, by rw [countEnded_append, h1, h2]⟩

/-- C5: for every controller state and every data-channel payload that
either fails to JSON-decode (`parsed = none`) or decodes to a value whose
`type` discriminator is not one of `status`/`response`/`error`, the
`DataReceived` hook emits no domain event and raises nothing: its whole
trace is at most a `console.warn` log entry. -/
theorem c5_malformed_payload_dropped (m : Manager) (parsed : Option Json)
    (h : ∀ d, parsed = some d → recognizedDiscriminator d = false) :
    (m.onDataReceived parsed).filter isEmitAction = [] ∧
    (m.onDataReceived parsed = [] ∨ m.onDataReceived parsed = [Action.consoleWarn]) := by
  cases parsed with
  | none =>
      constructor
      · simp [Manager.onDataReceived, List.filter_cons, isEmitAction]
      · exact Or.inr rfl
  | some d =>
      have hd := h d rfl
      unfold recognizedDiscriminator at hd
      unfold Manager.onDataReceived
      dsimp only
      cases hjs : jsGetField d "type" with
      | error e =>
          dsimp only at hd ⊢
          constructor
          · simp [List.filter_cons, isEmitAction]
          · exact Or.inr rfl
      | ok tyField =>
          dsimp only at hd ⊢
          cases tyField with
          | none => exact ⟨rfl, Or.inl rfl⟩
          | some jv =>
              cases jv with
              | str s =>
                  rw [hjs] at hd
                  dsimp only at hd
                  simp only [Bool.or_eq_false_iff] at hd
                  simp [hd.1.1, hd.1.2, hd.2]
              | null => exact ⟨rfl, Or.inl rfl⟩
              | bool b => exact ⟨rfl, Or.inl rfl⟩
              | num n => exact ⟨rfl, Or.inl rfl⟩
              | arr xs => exact ⟨rfl, Or.inl rfl⟩
              | obj fs => exact ⟨rfl, Or.inl rfl⟩

/-- C5 witness: the theorem applied to a fresh controller and the decoded
payload `{"type": "unknown"}`, whose discriminator is recognized by none
of the three dispatch branches. -/
theorem c5_malformed_payload_dropped_witness :
    ((Manager.new { id := "s1", liveKitToken := some "tok", liveKitUrl := some "wss://x" }).onDataReceived
        (some (Json.obj [("type", Json.str "unknown")]))).filter isEmitAction = [] ∧
    ((Manager.new { id := "s1", liveKitToken := some "tok", liveKitUrl := some "wss://x" }).onDataReceived
        (some (Json.obj [("type", Json.str "unknown")])) = [] ∨
      (Manager.new { id := "s1", liveKitToken := some "tok", liveKitUrl := some "wss://x" }).onDataReceived
        (some (Json.obj [("type", Json.str "unknown")])) = [Action.consoleWarn]) :=
  c5_malformed_payload_dropped
    (Manager.new { id := "s1", liveKitToken := some "tok", liveKitUrl := some "wss://x" })
    (some (Json.obj [("type", Json.str "unknown")]))
    (fun d hd => by cases hd; rfl)

/-- C6: for every controller and event type, registering two handlers
with `on` appends them, in order, to the existing array for that type;
emitting that event then invokes every registered handler in registration
order, with the throwing ones caught (recorded, not escalated) and not
preventing the invocation of the handlers after them; the caller of an
emitting operation such as `disconnect` still receives a fulfilled
result; and `off` with a handler not currently registered leaves the
controller unchanged. -/
theorem c6_handler_registry_semantics (m : Manager) (ty : String) (h1 h2 h3 : Handler)
    (hunreg : ∀ hs, mapGet m.eventHandlers ty = some hs → h3 ∉ hs) :
    mapGet (((m.on ty h1).on ty h2).eventHandlers) ty
        = some ((mapGet m.eventHandlers ty).getD [] ++ [h1, h2]) ∧
    ((m.on ty h1).on ty h2).emitEvent ty
        = Action.emit ty
            (((mapGet m.eventHandlers ty).getD [] ++ [h1, h2]).map Handler.hid)
            ((((mapGet m.eventHandlers ty).getD [] ++ [h1, h2]).filter Handler.throwing).map
              Handler.hid) ∧
    ((((m.on ty h1).on ty h2).disconnect).2.1 = Except.ok ()) ∧
    m.off ty h3 = m := by
  have hreg : mapGet (((m.on ty h1).on ty h2).eventHandlers) ty
      = some ((mapGet m.eventHandlers ty).getD [] ++ [h1, h2]) := by
    rw [on_handlers ((m.on ty h1)) ty h2, on_handlers m ty h1]
    simp
  refine ⟨hreg, ?_, Manager.disconnect_ok _, ?_⟩
  · unfold Manager.emitEvent
    rw [hreg]
    dsimp only
    rw [dispatch_invoked, dispatch_caught]
  · unfold Manager.off
    cases hm : mapGet m.eventHandlers ty with
    | none => rfl
    | some hs =>
        dsimp only
        rw [removeFirst_not_mem hs h3 (hunreg hs hm), mapSet_self m.eventHandlers ty hs hm]

/-- C6 witness: the theorem applied to a fresh controller, the
`avatar.response` event type, a non-throwing handler 1, a throwing
handler 2, and an unregistered handler 3. -/
theorem c6_handler_registry_semantics_witness :
    mapGet ((((Manager.new { id := "s1", liveKitToken := some "tok", liveKitUrl := some "wss://x" }).on
          "avatar.response" { hid := 1, throwing := false }).on
          "avatar.response" { hid := 2, throwing := true }).eventHandlers) "avatar.response"
        = some [{ hid := 1, throwing := false }, { hid := 2, throwing := true }] ∧
    (((Manager.new { id := "s1", liveKitToken := some "tok", liveKitUrl := some "wss://x" }).on
          "avatar.response" { hid := 1, throwing := false }).on
          "avatar.response" { hid := 2, throwing := true }).emitEvent "avatar.response"
        = Action.emit "avatar.response" [1, 2] [2] ∧
    (Manager.new { id := "s1", liveKitToken := some "tok", liveKitUrl := some "wss://x" }).off
        "avatar.response" { hid := 3, throwing := false }
      = Manager.new { id := "s1", liveKitToken := some "tok", liveKitUrl := some "wss://x" } := by
  have h := c6_handler_registry_semantics
    (Manager.new { id := "s1", liveKitToken := some "tok", liveKitUrl := some "wss://x" })
    "avatar.response" { hid := 1, throwing := false } { hid := 2, throwing := true }
    { hid := 3, throwing := false }
    (fun hs hcontra => by simp [Manager.new, mapGet, List.find?] at hcontra)
  exact ⟨h.1, h.2.1, h.2.2.2⟩

/-- C2: a failing `connect()` leaves the controller retryable.  When the
session lacks a truthy `liveKitToken` or `liveKitUrl`, `connect` fails
with the connection-setup `ConnectionError` before touching the transport
and the (never-connected) controller still reports `disconnected`.  When
the transport connect rejects, the failure is wrapped into a
`ConnectionError` carrying the underlying message, the controller reports
`disconnected`, and a retried `connect` behaves exactly as a `connect`
from the pre-failure state. -/
theorem c2_connect_failure_retryable (m : Manager) (rb : RoomBehavior) :
    ((!(jsTruthyStr m.session.liveKitToken) || !(jsTruthyStr m.session.liveKitUrl)) = true →
      m.room = none →
      m.connect rb = (m, Except.error (SessionLayerError.connectionError
          "LiveKit connection details not available"), []) ∧
      ((m.connect rb).1).getStatus = "disconnected") ∧
    ((jsTruthyStr m.session.liveKitToken) = true → (jsTruthyStr m.session.liveKitUrl) = true →
      rb.connectOk = false →
      (m.connect rb).2.1 = Except.error (SessionLayerError.connectionError
          ("Failed to connect to LiveKit: " ++ rb.connectErrMsg)) ∧
      ((m.connect rb).1).getStatus = "disconnected" ∧
      (∀ rb2, ((m.connect rb).1).connect rb2 = m.connect rb2)) := by
  constructor
  · intro hfalsy hroom
    have hc : m.connect rb = (m, Except.error (SessionLayerError.connectionError
        "LiveKit connection details not available"), []) := by
      unfold Manager.connect
      rw [hfalsy]
      rfl
    exact ⟨hc, by rw [hc]; simp [Manager.getStatus, hroom]⟩
  · intro htok hurl hcOk
    have hcond : (!(jsTruthyStr m.session.liveKitToken) || !(jsTruthyStr m.session.liveKitUrl))
        = false := by rw [htok, hurl]; rfl
    have hm1 : (m.connect rb).1 = { m with room := some (Room.new rb) } := by
      unfold Manager.connect
      rw [hcond]
      dsimp only
      rw [hcOk]
      rfl
    have hres : (m.connect rb).2.1 = Except.error (SessionLayerError.connectionError
        ("Failed to connect to LiveKit: " ++ rb.connectErrMsg)) := by
      unfold Manager.connect
      rw [hcond]
      dsimp only
      rw [hcOk]
      rfl
    refine ⟨hres, ?_, ?_⟩
    · rw [hm1]
      rfl
    · intro rb2
      rw [hm1]
      unfold Manager.connect
      dsimp only
      rw [hcond]
      simp

/-- C2 witness: the theorem applied to a controller whose session lacks
a token (connection-setup failure) and to a credentialed controller whose
transport connect rejects with message `ICE failure`; the retry then
behaves as a fresh connect. -/
theorem c2_connect_failure_retryable_witness :
    ((Manager.new { id := "s0", liveKitToken := none, liveKitUrl := some "wss://x" }).connect rbAllOk
      = (Manager.new { id := "s0", liveKitToken := none, liveKitUrl := some "wss://x" },
          Except.error (SessionLayerError.connectionError
            "LiveKit connection details not available"), [])) ∧
    (((Manager.new demoSession).connect rbConnectFails).2.1
      = Except.error (SessionLayerError.connectionError
          ("Failed to connect to LiveKit: " ++ rbConnectFails.connectErrMsg))) ∧
    ((((Manager.new demoSession).connect rbConnectFails).1).getStatus = "disconnected") ∧
    ((((Manager.new demoSession).connect rbConnectFails).1).connect rbAllOk
      = (Manager.new demoSession).connect rbAllOk) := by
  have ha := (c2_connect_failure_retryable
      (Manager.new { id := "s0", liveKitToken := none, liveKitUrl := some "wss://x" }) rbAllOk).1
    rfl rfl
  have hb := (c2_connect_failure_retryable (Manager.new demoSession) rbConnectFails).2
    rfl rfl rfl
  exact ⟨ha.1, hb.1, hb.2.1, hb.2.2 rbAllOk⟩

/-- C3 counterexample: a controller that connected and then received the
transport-disconnected notification no longer has an active connection —
`getStatus()` reports `disconnected` — yet `sendMessage("hi")` neither
fails with the not-connected error nor stays off the transport: it
performs a `publishData` call and resolves. -/
theorem c3_counterexample :
    staleRoomManager.getStatus = "disconnected" ∧
    (staleRoomManager.sendMessage "hi").2.1 = Except.ok () ∧
    (staleRoomManager.sendMessage "hi").2.2
      = [Action.publishData (Json.obj [("type", Json.str MSG_CHAT), ("text", Json.str "hi")])] :=
  ⟨rfl, rfl, rfl⟩

/-- C3 (amended): `sendMessage(text)` fails with the not-connected
`SessionError` — performing no transport I/O — exactly when the
controller holds no transport room object (never connected, or cleared by
`disconnect()`); whenever a room object is held, even one whose
connection state is `disconnected`, the chat envelope is published on the
transport, a publish rejection is wrapped into the messaging
`SessionError`, and the controller state (hence its connection status) is
unchanged in every case. -/
theorem c3_send_message_guard (m : Manager) (text : String) :
    (m.room = none →
      m.sendMessage text
        = (m, Except.error (SessionLayerError.sessionError "Not connected to session"), [])) ∧
    (∀ r, m.room = some r →
      (m.sendMessage text).1 = m ∧
      (m.sendMessage text).2.2
        = [Action.publishData (Json.obj [("type", Json.str MSG_CHAT), ("text", Json.str text)])] ∧
      (r.behavior.publishOk = true → (m.sendMessage text).2.1 = Except.ok ()) ∧
      (r.behavior.publishOk = false → (m.sendMessage text).2.1
        = Except.error (SessionLayerError.sessionError
            ("Failed to send message: " ++ r.behavior.publishErrMsg)))) := by
  constructor
  · intro hroom
    simp [Manager.sendMessage, hroom]
  · intro r hroom
    refine ⟨?_, ?_, ?_, ?_⟩
    · by_cases hp : r.behavior.publishOk = true <;> simp [Manager.sendMessage, hroom, hp]
    · by_cases hp : r.behavior.publishOk = true <;> simp [Manager.sendMessage, hroom, hp]
    · intro hp
      simp [Manager.sendMessage, hroom, hp]
    · intro hp
      simp [Manager.sendMessage, hroom, hp]

/-- C3 witness: the theorem applied to a never-connected controller (the
not-connected error, no I/O) and to the stale-room controller (publish
attempted, state unchanged). -/
theorem c3_send_message_guard_witness :
    ((Manager.new demoSession).sendMessage "hi"
      = (Manager.new demoSession,
          Except.error (SessionLayerError.sessionError "Not connected to session"), [])) ∧
    (staleRoomManager.sendMessage "hi").1 = staleRoomManager := by
  have ha := (c3_send_message_guard (Manager.new demoSession) "hi").1 rfl
  have hb := (c3_send_message_guard staleRoomManager "hi").2
    { behavior := rbAllOk, state := "disconnected" } rfl
  exact ⟨ha, hb.1⟩

/-- When a controller holds a room, its disconnect trace contains the
transport teardown call. -/
theorem roomDisconnect_mem_disconnect (m : Manager) (r : Room) (hr : m.room = some r) :
    Action.roomDisconnect ∈ (m.disconnect).2.2 := by
  by_cases hd : r.behavior.disconnectOk = true <;> simp [Manager.disconnect, hr, hd]

/-- No disconnect among the registered managers rejects, so the
`Promise.all` in `cleanup` finds no rejected member. -/
theorem cleanup_find_none (l : List (String × Manager)) :
    (l.map (fun p => (p.2).disconnect)).find? (fun r => !(exceptOk r.2.1)) = none := by
  rw [List.find?_eq_none]
  intro x hx
  obtain ⟨p, hp, rfl⟩ := List.mem_map.mp hx
  simp [Manager.disconnect_ok p.2, exceptOk]

/-- C1: for every registry state, `cleanup()` runs `disconnect()` on
every registered controller — each such disconnect tears down that
controller's room when it holds one and emits its `session.ended` — then
clears the registry.  Because a controller's `disconnect()` never rejects
(a rejecting transport-disconnect promise is simply not awaited), the
`Promise.all` always fulfills, so the registry is cleared and `cleanup`
resolves even when some controller's transport disconnect rejects. -/
theorem c1_cleanup_disconnects_all_and_clears (s : SDKState) :
    (SDK.cleanup s).1.sessions = [] ∧
    (SDK.cleanup s).2.1 = Except.ok () ∧
    (SDK.cleanup s).2.2 = (s.sessions.map (fun p => ((p.2).disconnect).2.2)).flatten ∧
    (∀ p, p ∈ s.sessions →
      countEnded ((p.2).disconnect).2.2 = 1 ∧
      (∀ r, (p.2).room = some r → Action.roomDisconnect ∈ ((p.2).disconnect).2.2)) := by
  have hc : SDK.cleanup s
      = ({ sessions := [] }, Except.ok (),
          (s.sessions.map (fun p => ((p.2).disconnect).2.2)).flatten) := by
    unfold SDK.cleanup
    dsimp only
    rw [cleanup_find_none s.sessions]
    rw [List.map_map]
    rfl
  refine ⟨by rw [hc], by rw [hc], by rw [hc], ?_⟩
  intro p _
  exact ⟨countEnded_disconnect p.2, fun r hr => roomDisconnect_mem_disconnect p.2 r hr⟩

/-- C1 witness: the theorem applied to the registry with three live
controllers whose middle transport disconnect rejects: the registry
still ends empty, cleanup resolves, and the rejecting controller was
still torn down and emitted its `session.ended`. -/
theorem c1_cleanup_disconnects_all_and_clears_witness :
    (SDK.cleanup cleanupDemoState).1.sessions = [] ∧
    (SDK.cleanup cleanupDemoState).2.1 = Except.ok () ∧
    countEnded ((mgrRejectingDisconnect.disconnect).2.2) = 1 ∧
    Action.roomDisconnect ∈ (mgrRejectingDisconnect.disconnect).2.2 := by
  have h := c1_cleanup_disconnects_all_and_clears cleanupDemoState
  have hmem : ("b", mgrRejectingDisconnect) ∈ cleanupDemoState.sessions :=
    List.Mem.tail _ (List.Mem.head _)
  have hp := h.2.2.2 ("b", mgrRejectingDisconnect) hmem
  exact ⟨h.1, h.2.1, hp.1,
    hp.2 { behavior := rbDisconnectFails, state := "connected" } rfl⟩

/-- C7: for every registry with a live controller under the given
identifier, `endSession(id)` disconnects that controller and removes it
from the registry before the gateway's end-session call (visible in the
trace order), and the removal persists even when the remote call fails:
the final registry equals the one with the entry deleted, for both remote
outcomes, with no re-insertion. -/
theorem c7_end_session_removes_before_remote (s : SDKState) (sid : String) (mgr : Manager)
    (hreg : mapGet s.sessions sid = some mgr) (remoteOk : Bool) :
    (SDK.endSession s sid remoteOk).1.sessions = mapDelete s.sessions sid ∧
    (SDK.endSession s sid remoteOk).2.2
      = (mgr.disconnect).2.2 ++ [Action.registryDelete sid, Action.remoteEndSession sid] ∧
    (remoteOk = false → exceptOk (SDK.endSession s sid remoteOk).2.1 = false) := by
  unfold SDK.endSession
  rw [hreg]
  dsimp only
  refine ⟨rfl, by simp, ?_⟩
  intro hfail
  rw [hfail]
  rfl

/-- C7 witness: the theorem applied to the three-session registry, the
registered identifier `b`, and a failing remote end-session call. -/
theorem c7_end_session_removes_before_remote_witness :
    (SDK.endSession cleanupDemoState "b" false).1.sessions
      = mapDelete cleanupDemoState.sessions "b" ∧
    (SDK.endSession cleanupDemoState "b" false).2.2
      = (mgrRejectingDisconnect.disconnect).2.2
        ++ [Action.registryDelete "b", Action.remoteEndSession "b"] ∧
    exceptOk (SDK.endSession cleanupDemoState "b" false).2.1 = false := by
  have h := c7_end_session_removes_before_remote cleanupDemoState "b" mgrRejectingDisconnect rfl false
  exact ⟨h.1, h.2.1, h.2.2 rfl⟩

/-- C8: `getSession(id)` returns the cached controller with no gateway
call on a registry hit; on a miss it performs the fetch, and a fetch
failure is swallowed into a `null` result with the registry unchanged,
while a fetch success yields a new controller cached under the fetched
session's id. -/
theorem c8_get_session_cache_and_swallow (s : SDKState) (sid : String)
    (fetched : Except APIError AvatarSession) :
    (∀ mgr, mapGet s.sessions sid = some mgr →
      SDK.getSession s sid fetched = (s, some mgr, [])) ∧
    (mapGet s.sessions sid = none →
      (∀ e, fetched = Except.error e →
        SDK.getSession s sid fetched = (s, none, [Action.fetchSession sid])) ∧
      (∀ sess, fetched = Except.ok sess →
        SDK.getSession s sid fetched
          = ({ sessions := mapSet s.sessions sess.id (Manager.new sess) },
              some (Manager.new sess), [Action.fetchSession sid]))) := by
  constructor
  · intro mgr hreg
    unfold SDK.getSession
    rw [hreg]
  · intro hmiss
    constructor
    · intro e hf
      unfold SDK.getSession
      rw [hmiss, hf]
    · intro sess hf
      unfold SDK.getSession
      rw [hmiss, hf]

/-- C8 witness: the theorem applied to the three-session registry for a
cache hit at `a`, and to the same registry for a miss at `zz` under both
a failing and a succeeding gateway fetch. -/
theorem c8_get_session_cache_and_swallow_witness :
    SDK.getSession cleanupDemoState "a" (Except.ok demoSession)
      = (cleanupDemoState, some mgrConnectedOk, []) ∧
    SDK.getSession cleanupDemoState "zz"
        (Except.error (APIError.soulCypher (Json.str "down") "NETWORK_ERROR" none))
      = (cleanupDemoState, none, [Action.fetchSession "zz"]) ∧
    SDK.getSession cleanupDemoState "zz" (Except.ok demoSession)
      = ({ sessions := mapSet cleanupDemoState.sessions demoSession.id (Manager.new demoSession) },
          some (Manager.new demoSession), [Action.fetchSession "zz"]) := by
  have hhit := (c8_get_session_cache_and_swallow cleanupDemoState "a"
      (Except.ok demoSession)).1 mgrConnectedOk rfl
  have hmiss1 := ((c8_get_session_cache_and_swallow cleanupDemoState "zz"
      (Except.error (APIError.soulCypher (Json.str "down") "NETWORK_ERROR" none))).2 rfl).1
    (APIError.soulCypher (Json.str "down") "NETWORK_ERROR" none) rfl
  have hmiss2 := ((c8_get_session_cache_and_swallow cleanupDemoState "zz"
      (Except.ok demoSession)).2 rfl).2 demoSession rfl
  exact ⟨hhit, hmiss1, hmiss2⟩

end SoulCypher
